import Mathlib

/-!
Verification of the pdf-to-json-app quiz editor core.

The embedding below models the two algorithmic components of
src/src/components/EditorScreen.tsx:

* the heuristic quiz-text classifier parseQuizText (lines 66-99), and
* the question-assembly state (currentQuestion / questionsArray) with its
  operations handleQuestionDrop, handleOptionDrop, handleAnswerChange,
  addQuestion, exportJSON (lines 300-341).

JavaScript string primitives (trim, split on newline runs, whitespace
collapsing, the anchored regular expressions used by the classifier) are
modelled explicitly over the character list of a string.  String length is
modelled as the UTF-16 code-unit count, as JavaScript computes it.
-/

namespace PdfToJsonApp

/-- Whitespace class of the JavaScript regex escape \s and of trim, restricted
to its ASCII members (space, tab, line feed, carriage return, vertical tab,
form feed); the inputs considered here contain no Unicode space characters. -/
def jsIsWs (c : Char) : Bool :=
  c = ' ' || c = '\t' || c = '\n' || c = '\r' || c = '\x0b' || c = '\x0c'

/-- Number of UTF-16 code units of one character (JavaScript String.length
counts code units, so astral characters count twice). -/
def jsLenChar (c : Char) : Nat :=
  if c.toNat < 0x10000 then 1 else 2

/-- JavaScript String.length: total UTF-16 code-unit count. -/
def jsLen (s : String) : Nat :=
  (s.data.map jsLenChar).sum

/-- Drop leading and trailing whitespace characters from a character list. -/
def jsTrimList (cs : List Char) : List Char :=
  ((cs.dropWhile jsIsWs).reverse.dropWhile jsIsWs).reverse

/-- JavaScript String.prototype.trim restricted to ASCII whitespace. -/
def jsTrim (s : String) : String :=
  String.mk (jsTrimList s.data)

/-- Replacement of chunk.replace with the global whitespace-run regex and a
single space: every maximal run of whitespace characters becomes one space
character.  The flag records whether the previous character belonged to a
whitespace run already replaced. -/
def collapseWsAux : Bool → List Char → List Char
  | _, [] => []
  | prevWs, c :: cs =>
    if jsIsWs c then
      if prevWs then collapseWsAux true cs
      else ' ' :: collapseWsAux true cs
    else c :: collapseWsAux false cs

/-- Collapse every maximal whitespace run of a character list to one space. -/
def collapseWsList (cs : List Char) : List Char :=
  collapseWsAux false cs

/-- Prepend a character to the first piece of a split result. -/
def consHead (c : Char) : List (List Char) → List (List Char)
  | [] => [[c]]
  | t :: ts => (c :: t) :: ts

/-- Splitting of text.split on the newline-run regex: separators are maximal
runs of the line-feed character, and boundary runs contribute empty pieces,
exactly as in JavaScript.  The flag records whether the scanner is inside a
newline run whose piece boundary was already emitted. -/
def splitNlAux : Bool → List Char → List (List Char)
  | _, [] => [[]]
  | inRun, c :: cs =>
    if c = '\n' then
      if inRun then splitNlAux true cs
      else [] :: splitNlAux true cs
    else consHead c (splitNlAux false cs)

/-- Split a string into chunks at runs of newline characters
(text.split with the newline-run regex in parseQuizText, line 70). -/
def splitNewlines (s : String) : List String :=
  (splitNlAux false s.data).map String.mk

/-- Test of the anchored question regex of line 76: one or more decimal
digits, then a dot or a closing parenthesis, then at least one whitespace
character. -/
def matchesQuestion (s : String) : Bool :=
  let ds := s.data.takeWhile Char.isDigit
  let rest := s.data.dropWhile Char.isDigit
  (!ds.isEmpty) &&
    match rest with
    | d :: w :: _ => (d = '.' || d = ')') && jsIsWs w
    | _ => false

/-- Test of the anchored option regex of line 80: an optional bullet, dash or
asterisk, then optional whitespace, then an optional opening parenthesis or
bracket, then a letter a-d or A-D, then a closing parenthesis, dot or closing
bracket, then at least one whitespace character.  The character classes of
the regex are pairwise disjoint and disjoint from their successors, so the
greedy left-to-right match implemented here coincides with the backtracking
semantics of the regex engine. -/
def matchesOption (s : String) : Bool :=
  let cs0 := s.data
  let cs1 :=
    match cs0 with
    | c :: rest => if c = '•' || c = '-' || c = '*' then rest else cs0
    | [] => cs0
  let cs2 := cs1.dropWhile jsIsWs
  let cs3 :=
    match cs2 with
    | c :: rest => if c = '(' || c = '[' then rest else cs2
    | [] => cs2
  match cs3 with
  | l :: d :: w :: _ =>
      (('a' ≤ l && l ≤ 'd') || ('A' ≤ l && l ≤ 'D')) &&
        (d = ')' || d = '.' || d = ']') && jsIsWs w
  | _ => false

/-- List of plain characters of one string, lowercased, so that the
case-insensitive regex tests can compare against lowercase literals. -/
def lowerData (s : String) : List Char :=
  s.data.map Char.toLower

/-- Character-list version of startsWith used by the case-insensitive
label tests. -/
def hasPrefixList : List Char → List Char → Bool
  | [], _ => true
  | _ :: _, [] => false
  | p :: ps, c :: cs => p = c && hasPrefixList ps cs

/-- Test of the case-insensitive answer regex of line 84: the chunk begins
with one of the labels Answer, Ans, Correct, Solution, optionally pluralised,
followed by a colon.  The trailing optional-whitespace part of the regex
constrains nothing for a mere test. -/
def matchesAnswer (s : String) : Bool :=
  ["answer:", "answers:", "ans:", "anss:",
   "correct:", "corrects:", "solution:", "solutions:"].any
    (fun p => hasPrefixList p.data (lowerData s))

/-- Test of the case-insensitive explanation regex of line 88: the chunk
begins with one of the labels Explanation, Because, Reason, Solution,
optionally pluralised, followed by a colon. -/
def matchesExplanation (s : String) : Bool :=
  ["explanation:", "explanations:", "because:", "becauses:",
   "reason:", "reasons:", "solution:", "solutions:"].any
    (fun p => hasPrefixList p.data (lowerData s))

/-- Test of the header-filter regex of line 92: the whole chunk consists of
at least one character, each an ASCII capital letter or whitespace. -/
def allCapsOrWs (s : String) : Bool :=
  (!s.data.isEmpty) && s.data.all (fun c => ('A' ≤ c && c ≤ 'Z') || jsIsWs c)

/-- Semantic roles of classified fragments.  The source encodes the role as
an emoji prefix of the pushed line; the model separates the role tag from the
text content. -/
inductive Role where
  | question
  | option
  | answer
  | explanation
  | plain
deriving DecidableEq, Repr

/-- One classified fragment: a role tag and the normalized chunk text that
the source pushes after the emoji tag. -/
structure Fragment where
  role : Role
  text : String
deriving DecidableEq, Repr

/-- Normalization applied to each chunk on line 73: trim, then collapse every
whitespace run to a single space. -/
def normalizeChunk (chunk : String) : String :=
  String.mk (collapseWsList (jsTrimList chunk.data))

/-- Per-chunk classification of the loop body of lines 72-95: the rules are
tested top to bottom and the first matching rule pushes the whole normalized
chunk tagged with its role; a chunk matching no rule pushes nothing. -/
def classifyChunk (chunk : String) : Option Fragment :=
  let trimmed := normalizeChunk chunk
  if matchesQuestion trimmed then some (Fragment.mk Role.question trimmed)
  else if matchesOption trimmed then some (Fragment.mk Role.option trimmed)
  else if matchesAnswer trimmed then some (Fragment.mk Role.answer trimmed)
  else if matchesExplanation trimmed then some (Fragment.mk Role.explanation trimmed)
  else if decide (15 < jsLen trimmed) && !allCapsOrWs trimmed then
    some (Fragment.mk Role.plain trimmed)
  else none

/-- The classifier parseQuizText of lines 66-99: split the text at newline
runs, keep only chunks whose trimmed length exceeds 5 code units, and emit
at most one tagged fragment per remaining chunk. -/
def parseQuizText (text : String) : List Fragment :=
  ((splitNewlines text).filter (fun c => decide (5 < jsLen (jsTrim c)))).filterMap
    classifyChunk

/-- The QuestionData record of lines 39-45: question number, stem text, image
list, the four option texts indexed positionally A-D, and the recorded
answer letter. -/
structure QuestionData where
  questionNumber : Nat
  questionText : String
  question_images : List String
  option_with_images_ : List String
  correct_answer : String
deriving DecidableEq, Repr

/-- Initial draft of lines 50-56: number 1, empty stem, no images, four empty
options, default answer A. -/
def initialQuestion : QuestionData :=
  { questionNumber := 1
    questionText := ""
    question_images := []
    option_with_images_ := ["", "", "", ""]
    correct_answer := "A" }

/-- The assembly-engine state: the in-progress draft currentQuestion and the
committed list questionsArray (lines 50-57). -/
structure EngineState where
  currentQuestion : QuestionData
  questionsArray : List QuestionData
deriving DecidableEq, Repr

/-- Engine state at mount: initial draft, empty committed list. -/
def initialState : EngineState :=
  { currentQuestion := initialQuestion, questionsArray := [] }

/-- handleQuestionDrop of lines 300-302: replace the draft stem. -/
def handleQuestionDrop (text : String) (s : EngineState) : EngineState :=
  { s with currentQuestion := { s.currentQuestion with questionText := text } }

/-- handleOptionDrop of lines 304-308: replace the draft option at the given
index (the caller maps the letters A-D to indices 0-3). -/
def handleOptionDrop (text : String) (optionIndex : Nat) (s : EngineState) :
    EngineState :=
  { s with currentQuestion :=
      { s.currentQuestion with
        option_with_images_ :=
          s.currentQuestion.option_with_images_.set optionIndex text } }

/-- handleAnswerChange of lines 310-312: replace the recorded answer. -/
def handleAnswerChange (answer : String) (s : EngineState) : EngineState :=
  { s with currentQuestion := { s.currentQuestion with correct_answer := answer } }

/-- Commit-eligibility guard, the condition duplicated verbatim at lines 315
and 329 (and in the Add Question button's disabled attribute): the stem is a
non-empty string - JavaScript truthiness, so the stem is not trimmed - and
every option is non-empty after trimming. -/
def canCommit (q : QuestionData) : Bool :=
  q.questionText != "" && q.option_with_images_.all (fun opt => jsTrim opt != "")

/-- addQuestion of lines 314-325: when the guard holds, append a snapshot of
the draft to the committed list and replace the draft with a fresh one whose
number is the old committed-list length plus 2; otherwise do nothing. -/
def addQuestion (s : EngineState) : EngineState :=
  if canCommit s.currentQuestion then
    { questionsArray := s.questionsArray ++ [s.currentQuestion]
      currentQuestion :=
        { questionNumber := s.questionsArray.length + 2
          questionText := ""
          question_images := []
          option_with_images_ := ["", "", "", ""]
          correct_answer := "A" } }
  else s

/-- exportJSON of lines 327-341: build the final array as a copy of the
committed list, with the current draft appended when the guard holds; the
function only reads the engine state, so the model returns the produced
array together with the unchanged state. -/
def exportJSON (s : EngineState) : List QuestionData × EngineState :=
  (if canCommit s.currentQuestion then s.questionsArray ++ [s.currentQuestion]
   else s.questionsArray,
   s)

/-- Engine states reachable through the component's event handlers, starting
from the mount state.  Option drops only arrive with indices 0-3 because the
UI maps over the four letters A-D (lines 357-364). -/
inductive ReachableE : EngineState → Prop where
  | init : ReachableE initialState
  | qdrop (t : String) (s : EngineState) :
      ReachableE s → ReachableE (handleQuestionDrop t s)
  | odrop (t : String) (i : Nat) (s : EngineState) :
      i < 4 → ReachableE s → ReachableE (handleOptionDrop t i s)
  | adrop (a : String) (s : EngineState) :
      ReachableE s → ReachableE (handleAnswerChange a s)
  | commit (s : EngineState) :
      ReachableE s → ReachableE (addQuestion s)

/-- Every reachable engine state keeps exactly four options in the draft and
in every committed record. -/
theorem reachable_options_length {s : EngineState} (h : ReachableE s) :
    s.currentQuestion.option_with_images_.length = 4 ∧
      ∀ q ∈ s.questionsArray, q.option_with_images_.length = 4 := by
  induction h with
  | init => exact ⟨rfl, by intro q hq; cases hq⟩
  | qdrop t s _ ih => exact ⟨ih.1, ih.2⟩
  | odrop t i s _ _ ih =>
    refine ⟨?_, ih.2⟩
    simpa [handleOptionDrop] using ih.1
  | adrop a s _ ih => exact ⟨ih.1, ih.2⟩
  | commit s _ ih =>
    by_cases hc : canCommit s.currentQuestion
    · refine ⟨by simp [addQuestion, hc], ?_⟩
      intro q hq
      simp only [addQuestion, hc, if_true] at hq
      rcases List.mem_append.mp hq with hq | hq
      · exact ih.2 q hq
      · rcases List.mem_singleton.mp hq with rfl
        exact ih.1
    · simpa [addQuestion, hc] using ih

/-- A chunk classified into an Option fragment keeps the whole normalized
chunk as its text, so the text still matches the option-marker pattern. -/
theorem classifyChunk_option_matches {c : String} {f : Fragment}
    (h : classifyChunk c = some f) (hr : f.role = Role.option) :
    matchesOption f.text = true := by
  simp only [classifyChunk] at h
  split at h
  · rw [← Option.some.inj h] at hr
    simp at hr
  · split at h
    · rename_i hopt
      rw [← Option.some.inj h]
      exact hopt
    · split at h
      · rw [← Option.some.inj h] at hr
        simp at hr
      · split at h
        · rw [← Option.some.inj h] at hr
          simp at hr
        · split at h
          · rw [← Option.some.inj h] at hr
            simp at hr
          · exact absurd h (by simp)

/-- Concrete engine state for claim C1: starting from the mount state, the
user drops a single-space stem and fills all four options. -/
def c1State : EngineState :=
  handleOptionDrop "6" 3 (handleOptionDrop "5" 2 (handleOptionDrop "4" 1
    (handleOptionDrop "3" 0 (handleQuestionDrop " " initialState))))

/-- C1 counterexample: the commit guard of lines 315 and 329 tests the stem
without trimming it, so at this reachable state - stem a single space, all
options filled - canCommit is true although the trimmed stem is empty,
refuting the claimed equivalence. -/
theorem c1_counterexample :
    ¬ (canCommit c1State.currentQuestion = true ↔
        (jsTrim c1State.currentQuestion.questionText ≠ "" ∧
          ∀ o ∈ c1State.currentQuestion.option_with_images_, jsTrim o ≠ "")) := by
  decide

/-- C1 (amended): for every reachable draft state, canCommit is true iff the
stem is non-empty as written - whitespace-only stems count as filled because
the source tests JavaScript truthiness of the untrimmed stem - and each of
the four options is non-empty after trimming whitespace. -/
theorem c1_canCommit_characterization (s : EngineState) (_h : ReachableE s) :
    canCommit s.currentQuestion = true ↔
      (s.currentQuestion.questionText ≠ "" ∧
        ∀ o ∈ s.currentQuestion.option_with_images_, jsTrim o ≠ "") := by
  simp [canCommit, List.all_eq_true, bne_iff_ne]

/-- C1 witness: the amended equivalence evaluated at the concrete reachable
state of the counterexample. -/
theorem c1_witness :
    canCommit c1State.currentQuestion = true ↔
      (c1State.currentQuestion.questionText ≠ "" ∧
        ∀ o ∈ c1State.currentQuestion.option_with_images_, jsTrim o ≠ "") :=
  c1_canCommit_characterization c1State
    (ReachableE.odrop "6" 3 _ (by decide)
      (ReachableE.odrop "5" 2 _ (by decide)
        (ReachableE.odrop "4" 1 _ (by decide)
          (ReachableE.odrop "3" 0 _ (by decide)
            (ReachableE.qdrop " " _ ReachableE.init)))))

/-- C2 counterexample: on the chunk "(a) Paris" the option rule fires and
pushes the whole normalized chunk, so the emitted Option text still begins
with the original bracketed-letter marker. -/
theorem c2_counterexample :
    parseQuizText "(a) Paris" = [Fragment.mk Role.option "(a) Paris"] ∧
      hasPrefixList ("(a)").data (("(a) Paris")).data = true := by
  exact ⟨by decide, by decide⟩

/-- C2 (amended): every fragment the classifier emits with role Option keeps
the whole normalized chunk as its text, so the text still matches the
option-marker pattern - the leading marker and letter are retained, not
stripped. -/
theorem c2_option_marker_retained (t : String) (f : Fragment)
    (hmem : f ∈ parseQuizText t) (hrole : f.role = Role.option) :
    matchesOption f.text = true := by
  simp only [parseQuizText] at hmem
  rcases List.mem_filterMap.mp hmem with ⟨c, _, hc⟩
  exact classifyChunk_option_matches hc hrole

/-- C2 witness: the amended statement evaluated on the Option fragment that
the classifier emits for "(a) Paris". -/
theorem c2_witness :
    matchesOption (Fragment.mk Role.option "(a) Paris").text = true :=
  c2_option_marker_retained "(a) Paris" (Fragment.mk Role.option "(a) Paris")
    (by decide) (by decide)

/-- C3: committing a committable draft appends the draft snapshot with its
current number - the committed list grows by exactly one - and resets the
draft to an empty one numbered old committed length plus 2, with empty stem
and options and default answer A. -/
theorem c3_commit_appends (s : EngineState)
    (h : canCommit s.currentQuestion = true) :
    (addQuestion s).questionsArray = s.questionsArray ++ [s.currentQuestion] ∧
      (addQuestion s).questionsArray.length = s.questionsArray.length + 1 ∧
      (addQuestion s).currentQuestion =
        { questionNumber := s.questionsArray.length + 2
          questionText := ""
          question_images := []
          option_with_images_ := ["", "", "", ""]
          correct_answer := "A" } := by
  refine ⟨?_, ?_, ?_⟩ <;> simp [addQuestion, h]

/-- C3 witness: the commit theorem evaluated at a concrete committable
state. -/
theorem c3_witness :
    (addQuestion (EngineState.mk (QuestionData.mk 1 "q" [] ["1", "2", "3", "4"] "A") [])).questionsArray =
        [] ++ [QuestionData.mk 1 "q" [] ["1", "2", "3", "4"] "A"] ∧
      (addQuestion (EngineState.mk (QuestionData.mk 1 "q" [] ["1", "2", "3", "4"] "A") [])).questionsArray.length =
        ([] : List QuestionData).length + 1 ∧
      (addQuestion (EngineState.mk (QuestionData.mk 1 "q" [] ["1", "2", "3", "4"] "A") [])).currentQuestion =
        { questionNumber := ([] : List QuestionData).length + 2
          questionText := ""
          question_images := []
          option_with_images_ := ["", "", "", ""]
          correct_answer := "A" } :=
  c3_commit_appends (EngineState.mk (QuestionData.mk 1 "q" [] ["1", "2", "3", "4"] "A") [])
    (by decide)

/-- C4: commit on a non-committable draft is rejected with no state change:
the guard of line 315 skips the whole body, leaving the draft, the committed
list and the number counter untouched - the operation is atomic on
failure. -/
theorem c4_commit_rejected (s : EngineState)
    (h : canCommit s.currentQuestion = false) :
    addQuestion s = s := by
  simp [addQuestion, h]

/-- C4 witness: rejection at the mount state, whose draft is empty. -/
theorem c4_witness : addQuestion initialState = initialState :=
  c4_commit_rejected initialState (by decide)

/-- C5: exportJSON reads but never writes the engine state: the state after
an export equals the state before it, canCommit is unchanged, and exporting
twice in a row yields equal arrays. -/
theorem c5_export_pure (s : EngineState) :
    (exportJSON s).2 = s ∧
      canCommit (exportJSON s).2.currentQuestion = canCommit s.currentQuestion ∧
      (exportJSON (exportJSON s).2).1 = (exportJSON s).1 :=
  ⟨rfl, rfl, rfl⟩

/-- C6: for every reachable engine state, exportJSON returns the committed
list in commit order with the current draft appended exactly when canCommit
holds for it, so the result length is the committed count plus zero or one,
and every exported record carries exactly four options, positionally ordered
A,B,C,D. -/
theorem c6_export_shape (s : EngineState) (h : ReachableE s) :
    (exportJSON s).1 =
        s.questionsArray ++
          (if canCommit s.currentQuestion then [s.currentQuestion] else []) ∧
      (exportJSON s).1.length =
        s.questionsArray.length +
          (if canCommit s.currentQuestion then 1 else 0) ∧
      ∀ q ∈ (exportJSON s).1, q.option_with_images_.length = 4 := by
  obtain ⟨hd, hc⟩ := reachable_options_length h
  by_cases hg : canCommit s.currentQuestion
  · refine ⟨by simp [exportJSON, hg], by simp [exportJSON, hg], ?_⟩
    intro q hq
    simp only [exportJSON, hg, if_true] at hq
    rcases List.mem_append.mp hq with hq | hq
    · exact hc q hq
    · rcases List.mem_singleton.mp hq with rfl
      exact hd
  · refine ⟨by simp [exportJSON, hg], by simp [exportJSON, hg], ?_⟩
    intro q hq
    simp only [exportJSON, hg, if_false] at hq
    exact hc q hq

/-- C6 witness: the export-shape theorem evaluated at the mount state. -/
theorem c6_witness :
    (exportJSON initialState).1 =
        initialState.questionsArray ++
          (if canCommit initialState.currentQuestion then [initialState.currentQuestion]
           else []) ∧
      (exportJSON initialState).1.length =
        initialState.questionsArray.length +
          (if canCommit initialState.currentQuestion then 1 else 0) ∧
      ∀ q ∈ (exportJSON initialState).1, q.option_with_images_.length = 4 :=
  c6_export_shape initialState ReachableE.init

/-- C7: the classifier is deterministic: it is a pure function of the input
text, so equal inputs classify to equal fragment sequences, with the same
roles, texts and relative order, independent of any external state. -/
theorem c7_deterministic (t u : String) (h : t = u) :
    parseQuizText t = parseQuizText u := by
  rw [h]

/-- C7 witness: determinism evaluated on a concrete input. -/
theorem c7_witness :
    parseQuizText "1. Same text" = parseQuizText "1. Same text" :=
  c7_deterministic "1. Same text" "1. Same text" rfl

/-- C8: the classifier is total: every input yields a finite fragment list
with at most one fragment per newline-separated chunk, and the empty input
yields the empty sequence. -/
theorem c8_total :
    parseQuizText "" = [] ∧
      ∀ t, (parseQuizText t).length ≤ (splitNewlines t).length := by
  refine ⟨rfl, fun t => ?_⟩
  calc (parseQuizText t).length
      ≤ ((splitNewlines t).filter (fun c => decide (5 < jsLen (jsTrim c)))).length :=
        List.length_filterMap_le _ _
    _ ≤ (splitNewlines t).length := List.length_filter_le _ _

/-- Input text of the concrete scenario of claim C9. -/
def c9Input : String :=
  "1. What is 2+2? • (a) 3 • (b) 4 • (c) 5 • (d) 6 Answer: b"

/-- C9 counterexample: the classifier of lines 66-99 splits only at newline
runs and the scenario text has none, so the single chunk matches the
question rule first and is emitted whole: one Question fragment with the
leading number and every option and answer marker still inside its text,
not the six separate fragments claimed. -/
theorem c9_counterexample :
    parseQuizText c9Input = [Fragment.mk Role.question c9Input] ∧
      (parseQuizText c9Input).length ≠ 6 :=
  ⟨by decide, by decide⟩

/-- C9 (amended): on the scenario input the classifier emits a single
Question fragment carrying the entire normalized line; after manually
assigning the stem, the four option texts 3,4,5,6 and answer B, canCommit is
true and commit appends exactly the record with number 1, the bare stem,
those options and answer B. -/
theorem c9_scenario :
    parseQuizText c9Input = [Fragment.mk Role.question c9Input] ∧
      canCommit (handleAnswerChange "B" (handleOptionDrop "6" 3 (handleOptionDrop "5" 2
        (handleOptionDrop "4" 1 (handleOptionDrop "3" 0
          (handleQuestionDrop "What is 2+2?" initialState)))))).currentQuestion = true ∧
      (addQuestion (handleAnswerChange "B" (handleOptionDrop "6" 3 (handleOptionDrop "5" 2
        (handleOptionDrop "4" 1 (handleOptionDrop "3" 0
          (handleQuestionDrop "What is 2+2?" initialState))))))).questionsArray =
        [QuestionData.mk 1 "What is 2+2?" [] ["3", "4", "5", "6"] "B"] :=
  ⟨by decide, by decide, by decide⟩

/-- C10: chunks are pre-filtered before any classification rule runs: the
classifier keeps only chunks whose trimmed length exceeds 5 code units, so a
chunk of trimmed length at most 5 produces no fragment even when it matches
a marker pattern - the example chunks match the question and answer rules
respectively, yet the classifier emits nothing for them. -/
theorem c10_short_chunks_dropped :
    (∀ t, parseQuizText t =
        ((splitNewlines t).filter (fun c => decide (5 < jsLen (jsTrim c)))).filterMap
          classifyChunk) ∧
      matchesQuestion (normalizeChunk "1. Hi") = true ∧
      matchesAnswer (normalizeChunk "Ans:b") = true ∧
      parseQuizText "1. Hi\nAns:b" = [] :=
  ⟨fun t => rfl, by decide, by decide, by decide⟩

end PdfToJsonApp
